import Mathlib

/-!
Verification of the browser-side OAuth2/PKCE engine of hanzo-js/iam.

The development shallowly embeds the two modules the claims are about:

* pkce.ts: generateRandomString, sha256 (abstracted as the Web Crypto
  primitive), base64UrlEncode, generatePkceChallenge, generateState;
* browser.ts (BrowserIamSdk): the session-storage keys, getDiscovery,
  handleCallback, refreshAccessToken, storeTokens, isTokenExpired,
  getValidAccessToken, and the load-event handler of signinSilent.

Browser platform primitives are modelled explicitly: session storage is a
string key-value map, fetch responses are environment records, Date.now is a
natural-number clock in epoch milliseconds, and the JS number-to-string and
string-to-number conversions are modelled on decimal-natural strings (with
none standing for NaN). Fallible methods return Except; async methods become
pure state-passing functions over the storage and the discovery cache.
-/

namespace HanzoIam

/-! ## JS number-to-string and string-to-number conversions -/

/-- Decimal digit character for values 0 through 9. -/
def decDigitChar : Nat → Char
  | 0 => '0' | 1 => '1' | 2 => '2' | 3 => '3' | 4 => '4'
  | 5 => '5' | 6 => '6' | 7 => '7' | 8 => '8' | _ => '9'

/-- Fuelled digit expansion; the fuel bounds the recursion depth so the
definition is structural and evaluates inside the kernel. -/
def natToDecCharsAux : Nat → Nat → List Char
  | 0, _ => []
  | fuel + 1, n =>
    if n < 10 then [decDigitChar n]
    else natToDecCharsAux fuel (n / 10) ++ [decDigitChar (n % 10)]

/-- Decimal digits of a natural number, most significant first. -/
def natToDecChars (n : Nat) : List Char := natToDecCharsAux (n + 1) n

/-- JS String(n) for the nonnegative integers this SDK converts. -/
def jsNumberToString (n : Nat) : String := String.mk (natToDecChars n)

/-- Numeric value of a decimal digit character; none for other characters. -/
def decDigitVal (c : Char) : Option Nat :=
  if 48 ≤ c.toNat ∧ c.toNat ≤ 57 then some (c.toNat - 48) else none

/-- Left fold of decimal digits onto an accumulator; none on a non-digit. -/
def decValAux : Nat → List Char → Option Nat
  | acc, [] => some acc
  | acc, c :: cs =>
    match decDigitVal c with
    | some d => decValAux (acc * 10 + d) cs
    | none => none

/-- JS Number(s) on the decimal-natural strings this SDK writes; none models
NaN. JS maps the empty string to 0, though the SDK guards every conversion
behind a falsiness check, so that case is inert. -/
def jsStringToNumber (s : String) : Option Nat :=
  if s.data.isEmpty then some 0 else decValAux 0 s.data

theorem decValAux_append (l1 l2 : List Char) : ∀ acc : Nat,
    decValAux acc (l1 ++ l2) =
      match decValAux acc l1 with
      | some a => decValAux a l2
      | none => none := by
  induction l1 with
  | nil => intro acc; rfl
  | cons c cs ih =>
    intro acc
    simp only [List.cons_append, decValAux]
    cases decDigitVal c with
    | some d => exact ih (acc * 10 + d)
    | none => rfl

theorem decDigitVal_decDigitChar (d : Nat) (h : d < 10) :
    decDigitVal (decDigitChar d) = some d := by
  interval_cases d <;> decide

theorem natToDecCharsAux_ne_nil (fuel n : Nat) :
    natToDecCharsAux (fuel + 1) n ≠ [] := by
  simp only [natToDecCharsAux]
  split <;> simp

theorem natToDecChars_ne_nil (n : Nat) : natToDecChars n ≠ [] :=
  natToDecCharsAux_ne_nil n n

theorem decValAux_natToDecCharsAux (fuel : Nat) : ∀ n : Nat, n < fuel → ∀ acc : Nat,
    decValAux acc (natToDecCharsAux fuel n) =
      some (acc * 10 ^ (natToDecCharsAux fuel n).length + n) := by
  induction fuel with
  | zero => intro n hn; omega
  | succ f ih =>
    intro n hn acc
    by_cases h10 : n < 10
    · simp only [natToDecCharsAux, if_pos h10, decValAux,
        decDigitVal_decDigitChar n h10, List.length_singleton]
      norm_num
    · have hrec : n / 10 < f := by omega
      simp only [natToDecCharsAux, if_neg h10, decValAux_append]
      rw [ih (n / 10) hrec acc]
      simp only [decValAux, decDigitVal_decDigitChar (n % 10) (by omega)]
      rw [List.length_append, List.length_singleton]
      congr 1
      have hdm : n / 10 * 10 + n % 10 = n := by omega
      calc (acc * 10 ^ (natToDecCharsAux f (n / 10)).length + n / 10) * 10 + n % 10
          = acc * (10 ^ (natToDecCharsAux f (n / 10)).length * 10) +
              (n / 10 * 10 + n % 10) := by ring
        _ = acc * 10 ^ ((natToDecCharsAux f (n / 10)).length + 1) + n := by
              rw [hdm, pow_succ]

theorem jsNumberToString_ne_empty (n : Nat) : jsNumberToString n ≠ "" := by
  intro h
  have hd : natToDecChars n = [] := congrArg String.data h
  exact natToDecChars_ne_nil n hd

theorem jsStringToNumber_jsNumberToString (n : Nat) :
    jsStringToNumber (jsNumberToString n) = some n := by
  have hne : natToDecChars n ≠ [] := natToDecChars_ne_nil n
  have hval := decValAux_natToDecCharsAux (n + 1) n (Nat.lt_succ_self n) 0
  simp only [jsStringToNumber, jsNumberToString]
  rw [if_neg (by simpa [List.isEmpty_iff] using hne)]
  simpa [natToDecChars] using hval

/-! ## pkce.ts: generateRandomString, base64UrlEncode, generatePkceChallenge -/

/-- Base-36 digit character, lowercase, as produced by JS toString(36). -/
def base36DigitChar : Nat → Char
  | 0 => '0' | 1 => '1' | 2 => '2' | 3 => '3' | 4 => '4' | 5 => '5'
  | 6 => '6' | 7 => '7' | 8 => '8' | 9 => '9' | 10 => 'a' | 11 => 'b'
  | 12 => 'c' | 13 => 'd' | 14 => 'e' | 15 => 'f' | 16 => 'g' | 17 => 'h'
  | 18 => 'i' | 19 => 'j' | 20 => 'k' | 21 => 'l' | 22 => 'm' | 23 => 'n'
  | 24 => 'o' | 25 => 'p' | 26 => 'q' | 27 => 'r' | 28 => 's' | 29 => 't'
  | 30 => 'u' | 31 => 'v' | 32 => 'w' | 33 => 'x' | 34 => 'y' | _ => 'z'

/-- Numeric value of a base-36 digit character, digits then lowercase
letters; none for other characters. -/
def base36DigitVal (c : Char) : Option Nat :=
  if 48 ≤ c.toNat ∧ c.toNat ≤ 57 then some (c.toNat - 48)
  else if 97 ≤ c.toNat ∧ c.toNat ≤ 122 then some (c.toNat - 87)
  else none

/-- Fuelled base-36 digit expansion of JS b.toString(36). -/
def natToBase36CharsAux : Nat → Nat → List Char
  | 0, _ => []
  | fuel + 1, n =>
    if n < 36 then [base36DigitChar n]
    else natToBase36CharsAux fuel (n / 36) ++ [base36DigitChar (n % 36)]

/-- JS b.toString(36): base-36 digits of b, most significant first. -/
def natToBase36Chars (n : Nat) : List Char := natToBase36CharsAux (n + 1) n

/-- JS s.padStart(2, "0"): pad on the left with zero characters to length 2. -/
def padStart2 (l : List Char) : List Char :=
  if l.length < 2 then List.replicate (2 - l.length) '0' ++ l else l

/-- One byte of generateRandomString: b.toString(36).padStart(2, "0"). -/
def byteChars (b : Nat) : List Char := padStart2 (natToBase36Chars b)

/-- generateRandomString(length) from pkce.ts, with the bytes filled in by
crypto.getRandomValues supplied as an argument: maps each byte to its
two-character zero-padded base-36 form, joins, and slices to the first
length characters. -/
def generateRandomString (length : Nat) (bytes : List Nat) : String :=
  String.mk (List.take length (bytes.map byteChars).flatten)

/-- Standard base64 alphabet, indexed by a 6-bit group. -/
def base64Char (n : Nat) : Char :=
  "ABCDEFGHIJKLMNOPQRSTUVWXYZabcdefghijklmnopqrstuvwxyz0123456789+/".data.getD n 'A'

/-- btoa: standard base64 of a byte sequence, three bytes per four output
characters, padded with equals signs. -/
def base64Chunks : List Nat → List Char
  | [] => []
  | [b1] => [base64Char (b1 / 4), base64Char (b1 % 4 * 16), '=', '=']
  | [b1, b2] => [base64Char (b1 / 4), base64Char (b1 % 4 * 16 + b2 / 16),
                 base64Char (b2 % 16 * 4), '=']
  | b1 :: b2 :: b3 :: rest =>
    base64Char (b1 / 4) :: base64Char (b1 % 4 * 16 + b2 / 16) ::
    base64Char (b2 % 16 * 4 + b3 / 64) :: base64Char (b3 % 64) ::
    base64Chunks rest

/-- Replacement of a base64 character by its url-safe counterpart, as done by
the two replace calls in base64UrlEncode. -/
def urlSafeChar (c : Char) : Char :=
  if c = '+' then '-' else if c = '/' then '_' else c

/-- Removal of the trailing run of equals signs, as done by the final replace
in base64UrlEncode. -/
def dropTrailingEquals (l : List Char) : List Char :=
  (l.reverse.dropWhile (fun c => c = '=')).reverse

/-- base64UrlEncode from pkce.ts: btoa of the byte string, with plus mapped to
minus, slash mapped to underscore, and trailing padding removed. -/
def base64UrlEncode (bytes : List Nat) : String :=
  String.mk (dropTrailingEquals ((base64Chunks bytes).map urlSafeChar))

/-- Verifier-challenge pair returned by generatePkceChallenge. -/
structure PkceChallenge where
  codeVerifier : String
  codeChallenge : String
deriving DecidableEq

/-- generatePkceChallenge from pkce.ts. SHA-256 is the Web Crypto primitive,
out of scope per the spec, and is supplied as a function argument mapping the
verifier string to its digest bytes; the 64 random bytes filled in by
crypto.getRandomValues are likewise supplied as an argument. -/
def generatePkceChallenge (sha256 : String → List Nat) (bytes : List Nat) :
    PkceChallenge :=
  let codeVerifier := generateRandomString 64 bytes
  { codeVerifier := codeVerifier
    codeChallenge := base64UrlEncode (sha256 codeVerifier) }

/-- generateState from pkce.ts: generateRandomString(32) over the 32 random
bytes filled in by crypto.getRandomValues. -/
def generateState (bytes : List Nat) : String := generateRandomString 32 bytes

theorem base36DigitVal_base36DigitChar (d : Nat) (h : d < 36) :
    base36DigitVal (base36DigitChar d) = some d := by
  interval_cases d <;> decide

theorem base36DigitChar_injOn (d1 d2 : Nat) (h1 : d1 < 36) (h2 : d2 < 36)
    (h : base36DigitChar d1 = base36DigitChar d2) : d1 = d2 := by
  have := base36DigitVal_base36DigitChar d1 h1
  rw [h, base36DigitVal_base36DigitChar d2 h2] at this
  exact (Option.some_inj.mp this).symm

theorem byteChars_eq_pair (b : Nat) (h : b < 1296) :
    byteChars b = [base36DigitChar (b / 36), base36DigitChar (b % 36)] := by
  by_cases h36 : b < 36
  · have hd : b / 36 = 0 := by omega
    have hm : b % 36 = b := by omega
    simp [byteChars, natToBase36Chars, natToBase36CharsAux, if_pos h36,
      padStart2, hd, hm, List.replicate]
    rfl
  · have hq : b / 36 < 36 := by omega
    obtain ⟨k, rfl⟩ : ∃ k, b = k + 1 := ⟨b - 1, by omega⟩
    simp only [byteChars, natToBase36Chars, natToBase36CharsAux, if_neg h36,
      if_pos hq, padStart2]
    simp

theorem byteChars_injOn (b1 b2 : Nat) (h1 : b1 < 1296) (h2 : b2 < 1296)
    (h : byteChars b1 = byteChars b2) : b1 = b2 := by
  rw [byteChars_eq_pair b1 h1, byteChars_eq_pair b2 h2] at h
  simp only [List.cons.injEq, and_true] at h
  obtain ⟨hq, hm⟩ := h
  have hq2 := base36DigitChar_injOn (b1 / 36) (b2 / 36) (by omega) (by omega) hq
  have hm2 := base36DigitChar_injOn (b1 % 36) (b2 % 36) (by omega) (by omega) hm
  omega

theorem flatBytes_length (bs : List Nat) (h : ∀ b ∈ bs, b < 1296) :
    ((bs.map byteChars).flatten).length = 2 * bs.length := by
  induction bs with
  | nil => rfl
  | cons b rest ih =>
    rw [List.map_cons, List.flatten_cons, List.length_append,
      byteChars_eq_pair b (h b (by simp)), ih (fun x hx => h x (by simp [hx]))]
    simp only [List.length_cons, List.length_nil]
    omega

theorem flatBytes_inj : ∀ bs1 bs2 : List Nat, (∀ b ∈ bs1, b < 1296) →
    (∀ b ∈ bs2, b < 1296) →
    (bs1.map byteChars).flatten = (bs2.map byteChars).flatten → bs1 = bs2 := by
  intro bs1
  induction bs1 with
  | nil =>
    intro bs2 _ h2 h
    cases bs2 with
    | nil => rfl
    | cons b rest =>
      rw [List.map_cons, List.flatten_cons, byteChars_eq_pair b (h2 b (by simp))] at h
      simp at h
  | cons b1 rest1 ih =>
    intro bs2 h1 h2 h
    cases bs2 with
    | nil =>
      rw [List.map_cons, List.flatten_cons, byteChars_eq_pair b1 (h1 b1 (by simp))] at h
      simp at h
    | cons b2 rest2 =>
      have hm1 : b1 < 1296 := h1 b1 (by simp)
      have hm2 : b2 < 1296 := h2 b2 (by simp)
      rw [List.map_cons, List.flatten_cons, byteChars_eq_pair b1 hm1,
        List.map_cons, List.flatten_cons, byteChars_eq_pair b2 hm2] at h
      simp only [List.cons_append, List.nil_append, List.cons.injEq] at h
      obtain ⟨hc1, hc2, hrest⟩ := h
      have hb : b1 = b2 := by
        have hq := base36DigitChar_injOn (b1 / 36) (b2 / 36) (by omega) (by omega) hc1
        have hm := base36DigitChar_injOn (b1 % 36) (b2 % 36) (by omega) (by omega) hc2
        omega
      rw [hb]
      congr 1
      exact ih rest2 (fun x hx => h1 x (by simp [hx]))
        (fun x hx => h2 x (by simp [hx])) hrest

theorem take_flatBytes : ∀ (k : Nat) (bs : List Nat), (∀ b ∈ bs, b < 1296) →
    k ≤ bs.length →
    List.take (2 * k) (bs.map byteChars).flatten = ((bs.take k).map byteChars).flatten := by
  intro k
  induction k with
  | zero => intro bs _ _; simp
  | succ j ih =>
    intro bs hval hlen
    cases bs with
    | nil => simp at hlen
    | cons b rest =>
      have hb := byteChars_eq_pair b (hval b (by simp))
      have hrest : ∀ x ∈ rest, x < 1296 := fun x hx => hval x (by simp [hx])
      have hlen2 : j ≤ rest.length := by
        simp only [List.length_cons] at hlen; omega
      have h2 : 2 * (j + 1) = 2 * j + 1 + 1 := by omega
      rw [List.take_succ_cons, List.map_cons, List.map_cons, List.flatten_cons,
        List.flatten_cons, hb, h2]
      simp only [List.cons_append, List.nil_append, List.take_succ_cons]
      rw [ih rest hrest hlen2]

/-! ## browser.ts: storage model and data types -/

/-- Session storage: a string key-value map with get, set and remove. -/
def Store : Type := String → Option String

/-- storage.getItem(key). -/
def getItem (st : Store) (key : String) : Option String := st key

/-- storage.setItem(key, value). -/
def setItem (st : Store) (key value : String) : Store :=
  fun k => if k = key then some value else st k

/-- storage.removeItem(key). -/
def removeItem (st : Store) (key : String) : Store :=
  fun k => if k = key then none else st k

/-- A storage with no entries. -/
def emptyStore : Store := fun _ => none

/-- The fixed storage keys of browser.ts, constant-prefixed. -/
def KEY_STATE : String := "hanzo_iam_state"

def KEY_CODE_VERIFIER : String := "hanzo_iam_code_verifier"

def KEY_ACCESS_TOKEN : String := "hanzo_iam_access_token"

def KEY_REFRESH_TOKEN : String := "hanzo_iam_refresh_token"

def KEY_ID_TOKEN : String := "hanzo_iam_id_token"

def KEY_EXPIRES_AT : String := "hanzo_iam_expires_at"

/-- JS truthiness of a string-or-null value: null and the empty string are
falsy, every other string is truthy. -/
def truthy : Option String → Bool
  | none => false
  | some s => s != ""

/-- TokenResponse from types.ts, as consumed by browser.ts: the access token
plus the optional refresh token, ID token and lifetime in seconds. A none
field models the key being absent from the JSON response. -/
structure TokenResponse where
  access_token : String
  refresh_token : Option String := none
  id_token : Option String := none
  expires_in : Option Nat := none
deriving DecidableEq

/-- OidcDiscovery from types.ts as it reaches browser.ts: getDiscovery casts
the parsed JSON without runtime validation, so every endpoint field may be
absent (none). -/
structure OidcDiscovery where
  authorization_endpoint : Option String := none
  token_endpoint : Option String := none
  userinfo_endpoint : Option String := none
deriving DecidableEq

/-- The typed failure outcomes of the embedded methods, one per throw site. -/
inductive SdkError where
  | oauthError (desc : String)
  | missingCode
  | stateMismatch
  | missingCodeVerifier
  | discoveryFailed (status : Nat)
  | invalidJson
  | tokenExchangeFailed (status : Nat)
  | tokenRefreshFailed (status : Nat)
  | noRefreshToken
deriving DecidableEq

deriving instance DecidableEq for Except

/-- A fetch response: the ok flag and status of the Response object, and the
outcome of res.json(), where none models a body that is not valid JSON. -/
structure HttpResponse (α : Type) where
  ok : Bool
  status : Nat
  jsonBody : Option α
deriving DecidableEq

/-- The network as seen by one flow invocation: the response the well-known
endpoint would give, and the response the token endpoint would give to the
next POST. -/
structure NetworkEnv where
  discovery : HttpResponse OidcDiscovery
  tokenEndpoint : HttpResponse TokenResponse
deriving DecidableEq

/-- Boolean success test on an Except result. -/
def exceptOk {ε α : Type} : Except ε α → Bool
  | .ok _ => true
  | .error _ => false

/-- The view of new URL(callbackUrl) that browser.ts reads: the full href and
the four query parameters fetched through searchParams.get, where none models
the parameter being absent (null). -/
structure CallbackUrl where
  href : String
  code : Option String := none
  state : Option String := none
  error : Option String := none
  error_description : Option String := none
deriving DecidableEq

/-- JS String.startsWith, modelled on the underlying character lists. -/
def strStartsWith (s pat : String) : Bool := pat.data.isPrefixOf s.data

/-! ## browser.ts: SDK operations -/

/-- getDiscovery: returns the cached document if present; otherwise fetches
the well-known endpoint, throws on a non-success status, parses the JSON body
(throwing if it is not valid JSON), caches the parsed document without
validating its fields, and returns it. The pair carries the result and the
instance cache after the call. -/
def getDiscovery (env : NetworkEnv) (cache : Option OidcDiscovery) :
    Except SdkError OidcDiscovery × Option OidcDiscovery :=
  match cache with
  | some d => (.ok d, some d)
  | none =>
    if env.discovery.ok then
      match env.discovery.jsonBody with
      | some d => (.ok d, some d)
      | none => (.error .invalidJson, none)
    else (.error (.discoveryFailed env.discovery.status), none)

/-- storeTokens: writes the access token unconditionally and the refresh
token, ID token and expiry instant only when the response carries a truthy
value for them; the expiry instant is Date.now() plus expires_in seconds,
stored as a decimal string of epoch milliseconds. -/
def storeTokens (tokens : TokenResponse) (now : Nat) (st : Store) : Store :=
  let st1 := setItem st KEY_ACCESS_TOKEN tokens.access_token
  let st2 := match tokens.refresh_token with
    | some r => if r = "" then st1 else setItem st1 KEY_REFRESH_TOKEN r
    | none => st1
  let st3 := match tokens.id_token with
    | some t => if t = "" then st2 else setItem st2 KEY_ID_TOKEN t
    | none => st2
  match tokens.expires_in with
  | some n =>
    if n = 0 then st3
    else setItem st3 KEY_EXPIRES_AT (jsNumberToString (now + n * 1000))
  | none => st3

/-- isTokenExpired: expired when no expiry is stored (a falsy stored value),
otherwise when Date.now() is at or past the stored instant; a stored string
that is not a number compares as NaN, which makes the test false. -/
def isTokenExpired (now : Nat) (st : Store) : Bool :=
  match getItem st KEY_EXPIRES_AT with
  | none => true
  | some s =>
    if s = "" then true
    else match jsStringToNumber s with
      | none => false
      | some n => decide (n ≤ now)

/-- Outcome of handleCallback or refreshAccessToken: the returned value or
thrown error, the storage and discovery cache afterwards, and how many POST
requests were made to the token endpoint during the call. -/
structure FlowResult where
  result : Except SdkError TokenResponse
  store : Store
  cache : Option OidcDiscovery
  exchangeCount : Nat

/-- handleCallback from browser.ts: reads code, state and error from the
callback URL; throws on a provider error; throws on a missing code; compares
the callback state against the persisted state, failing closed on a falsy or
unequal value; requires the persisted code verifier; removes the one-time
state and verifier; then exchanges the code at the token endpoint and stores
the resulting tokens. -/
def handleCallback (env : NetworkEnv) (cache : Option OidcDiscovery) (now : Nat)
    (url : CallbackUrl) (st : Store) : FlowResult :=
  if truthy url.error then
    let desc := match url.error_description with
      | some d => d
      | none => url.error.getD ""
    { result := .error (.oauthError desc), store := st, cache := cache,
      exchangeCount := 0 }
  else if !truthy url.code then
    { result := .error .missingCode, store := st, cache := cache,
      exchangeCount := 0 }
  else
    let savedState := getItem st KEY_STATE
    if !truthy savedState || savedState != url.state then
      { result := .error .stateMismatch, store := st, cache := cache,
        exchangeCount := 0 }
    else
      let codeVerifier := getItem st KEY_CODE_VERIFIER
      if !truthy codeVerifier then
        { result := .error .missingCodeVerifier, store := st, cache := cache,
          exchangeCount := 0 }
      else
        let st1 := removeItem (removeItem st KEY_STATE) KEY_CODE_VERIFIER
        match getDiscovery env cache with
        | (.error e, cache2) =>
          { result := .error e, store := st1, cache := cache2,
            exchangeCount := 0 }
        | (.ok _, cache2) =>
          if env.tokenEndpoint.ok then
            match env.tokenEndpoint.jsonBody with
            | some tokens =>
              { result := .ok tokens, store := storeTokens tokens now st1,
                cache := cache2, exchangeCount := 1 }
            | none =>
              { result := .error .invalidJson, store := st1, cache := cache2,
                exchangeCount := 1 }
          else
            { result := .error (.tokenExchangeFailed env.tokenEndpoint.status),
              store := st1, cache := cache2, exchangeCount := 1 }

/-- refreshAccessToken from browser.ts: requires a truthy stored refresh
token, fetches discovery, POSTs the refresh grant to the token endpoint,
throws on a non-success response, and stores the returned tokens. -/
def refreshAccessToken (env : NetworkEnv) (cache : Option OidcDiscovery)
    (now : Nat) (st : Store) : FlowResult :=
  if !truthy (getItem st KEY_REFRESH_TOKEN) then
    { result := .error .noRefreshToken, store := st, cache := cache,
      exchangeCount := 0 }
  else
    match getDiscovery env cache with
    | (.error e, cache2) =>
      { result := .error e, store := st, cache := cache2, exchangeCount := 0 }
    | (.ok _, cache2) =>
      if env.tokenEndpoint.ok then
        match env.tokenEndpoint.jsonBody with
        | some tokens =>
          { result := .ok tokens, store := storeTokens tokens now st,
            cache := cache2, exchangeCount := 1 }
        | none =>
          { result := .error .invalidJson, store := st, cache := cache2,
            exchangeCount := 1 }
      else
        { result := .error (.tokenRefreshFailed env.tokenEndpoint.status),
          store := st, cache := cache2, exchangeCount := 1 }

/-- Outcome of getValidAccessToken: the returned access token or null,
the storage and cache afterwards, and how many times refreshAccessToken was
invoked. -/
structure AccessTokenResult where
  result : Option String
  store : Store
  cache : Option OidcDiscovery
  refreshAttempts : Nat

/-- getValidAccessToken from browser.ts: returns the stored access token when
truthy and unexpired; otherwise, when a truthy refresh token is stored, tries
one refresh inside a try-catch that turns every failure into null; otherwise
returns null. -/
def getValidAccessToken (env : NetworkEnv) (cache : Option OidcDiscovery)
    (now : Nat) (st : Store) : AccessTokenResult :=
  let token := getItem st KEY_ACCESS_TOKEN
  if truthy token && !isTokenExpired now st then
    { result := token, store := st, cache := cache, refreshAttempts := 0 }
  else if truthy (getItem st KEY_REFRESH_TOKEN) then
    let r := refreshAccessToken env cache now st
    match r.result with
    | .ok tokens =>
      { result := some tokens.access_token, store := r.store, cache := r.cache,
        refreshAttempts := 1 }
    | .error _ =>
      { result := none, store := r.store, cache := r.cache,
        refreshAttempts := 1 }
  else
    { result := none, store := st, cache := cache, refreshAttempts := 0 }

/-! ## browser.ts: the silent signin iframe flow -/

/-- The configuration fields of BrowserIamSdk that the embedded flows read. -/
structure BrowserIamConfig where
  serverUrl : String := ""
  clientId : String := ""
  redirectUri : String

/-- The pending-request writes every flow performs before dispatch: persist
the state and the code verifier under their fixed keys. -/
def storePendingRequest (state codeVerifier : String) (st : Store) : Store :=
  setItem (setItem st KEY_STATE state) KEY_CODE_VERIFIER codeVerifier

/-- The cleanup closure of signinSilent: clears the timer, removes the
iframe, and removes the pending state and code verifier from storage. -/
def silentCleanup (st : Store) : Store :=
  removeItem (removeItem st KEY_STATE) KEY_CODE_VERIFIER

/-- An event that can reach the signinSilent promise: the timeout firing, or
the iframe load listener firing, where the access field is none when reading
contentWindow.location.href threw a cross-origin error and otherwise carries
the URL that was read. -/
inductive SilentEvent where
  | timeout
  | load (access : Option CallbackUrl)

/-- Effect of one signinSilent event on the pending promise: resolved is none
while the promise stays pending, some none for a resolution with null, and
some (some tokens) for a resolution with a token response. -/
structure SilentStep where
  resolved : Option (Option TokenResponse)
  store : Store
  cache : Option OidcDiscovery

/-- One firing of signinSilent's timeout or iframe load listener, after the
pending request was stored and the iframe dispatched. The timeout cleans up
and resolves null; a cross-origin read cleans up and resolves null; a load
whose URL starts with the redirect URI runs cleanup and then handleCallback,
resolving with its tokens on success and null on failure; any other load
leaves the promise pending. -/
def signinSilentStep (cfg : BrowserIamConfig) (env : NetworkEnv)
    (cache : Option OidcDiscovery) (now : Nat) (ev : SilentEvent)
    (st : Store) : SilentStep :=
  match ev with
  | .timeout => { resolved := some none, store := silentCleanup st, cache := cache }
  | .load none => { resolved := some none, store := silentCleanup st, cache := cache }
  | .load (some u) =>
    if strStartsWith u.href cfg.redirectUri then
      let st1 := silentCleanup st
      let r := handleCallback env cache now u st1
      match r.result with
      | .ok tokens =>
        { resolved := some (some tokens), store := r.store, cache := r.cache }
      | .error _ =>
        { resolved := some none, store := r.store, cache := r.cache }
    else
      { resolved := none, store := st, cache := cache }

/-! ## Storage helper lemmas -/

theorem getItem_setItem (st : Store) (k v k2 : String) :
    getItem (setItem st k v) k2 = if k2 = k then some v else getItem st k2 := rfl

theorem getItem_removeItem (st : Store) (k k2 : String) :
    getItem (removeItem st k) k2 = if k2 = k then none else getItem st k2 := rfl

theorem isTokenExpired_congr (t : Nat) (st1 st2 : Store)
    (h : getItem st1 KEY_EXPIRES_AT = getItem st2 KEY_EXPIRES_AT) :
    isTokenExpired t st1 = isTokenExpired t st2 := by
  unfold isTokenExpired
  rw [h]

theorem getItem_storeTokens_state (tokens : TokenResponse) (now : Nat) (st : Store) :
    getItem (storeTokens tokens now st) KEY_STATE = getItem st KEY_STATE := by
  unfold storeTokens
  cases tokens.refresh_token <;> cases tokens.id_token <;> cases tokens.expires_in <;>
    simp only [] <;> (try split_ifs) <;>
    simp [getItem_setItem, KEY_STATE, KEY_ACCESS_TOKEN, KEY_REFRESH_TOKEN,
      KEY_ID_TOKEN, KEY_EXPIRES_AT]

theorem getItem_storeTokens_verifier (tokens : TokenResponse) (now : Nat) (st : Store) :
    getItem (storeTokens tokens now st) KEY_CODE_VERIFIER = getItem st KEY_CODE_VERIFIER := by
  unfold storeTokens
  cases tokens.refresh_token <;> cases tokens.id_token <;> cases tokens.expires_in <;>
    simp only [] <;> (try split_ifs) <;>
    simp [getItem_setItem, KEY_CODE_VERIFIER, KEY_ACCESS_TOKEN, KEY_REFRESH_TOKEN,
      KEY_ID_TOKEN, KEY_EXPIRES_AT]

/-! ## C10: storeTokens leaves omitted fields in place -/

/-- C10: if the token response passed to storeTokens omits expires_in, or
omits refresh_token or id_token, the previously stored expiry instant,
refresh token or ID token remains in storage, and isTokenExpired afterwards
is computed from the previous expiry. -/
theorem storeTokens_omitted_fields_keep_old (tokens : TokenResponse) (now : Nat)
    (st : Store) :
    (tokens.expires_in = none →
      getItem (storeTokens tokens now st) KEY_EXPIRES_AT = getItem st KEY_EXPIRES_AT ∧
      ∀ t, isTokenExpired t (storeTokens tokens now st) = isTokenExpired t st) ∧
    (tokens.refresh_token = none →
      getItem (storeTokens tokens now st) KEY_REFRESH_TOKEN = getItem st KEY_REFRESH_TOKEN) ∧
    (tokens.id_token = none →
      getItem (storeTokens tokens now st) KEY_ID_TOKEN = getItem st KEY_ID_TOKEN) := by
  refine ⟨fun hexp => ?_, fun hre => ?_, fun hid => ?_⟩
  · have hget : getItem (storeTokens tokens now st) KEY_EXPIRES_AT = getItem st KEY_EXPIRES_AT := by
      unfold storeTokens
      rw [hexp]
      cases tokens.refresh_token <;> cases tokens.id_token <;>
        simp only [] <;> (try split_ifs) <;>
        simp [getItem_setItem, KEY_ACCESS_TOKEN, KEY_REFRESH_TOKEN,
          KEY_ID_TOKEN, KEY_EXPIRES_AT]
    exact ⟨hget, fun t => isTokenExpired_congr t _ _ hget⟩
  · unfold storeTokens
    rw [hre]
    cases tokens.id_token <;> cases tokens.expires_in <;>
      simp only [] <;> (try split_ifs) <;>
      simp [getItem_setItem, KEY_ACCESS_TOKEN, KEY_REFRESH_TOKEN,
        KEY_ID_TOKEN, KEY_EXPIRES_AT]
  · unfold storeTokens
    rw [hid]
    cases tokens.refresh_token <;> cases tokens.expires_in <;>
      simp only [] <;> (try split_ifs) <;>
      simp [getItem_setItem, KEY_ACCESS_TOKEN, KEY_REFRESH_TOKEN,
        KEY_ID_TOKEN, KEY_EXPIRES_AT]

/-- A storage holding an earlier token set, used to exercise the frame
properties of storeTokens on concrete data. -/
def oldTokenStore : Store :=
  setItem (setItem (setItem (setItem emptyStore KEY_ACCESS_TOKEN "oldAccess")
    KEY_EXPIRES_AT "111") KEY_REFRESH_TOKEN "oldRefresh") KEY_ID_TOKEN "oldId"

theorem storeTokens_omitted_fields_keep_old_witness :
    getItem (storeTokens { access_token := "newAccess" } 5 oldTokenStore)
      KEY_EXPIRES_AT = some "111" ∧
    getItem (storeTokens { access_token := "newAccess" } 5 oldTokenStore)
      KEY_REFRESH_TOKEN = some "oldRefresh" ∧
    getItem (storeTokens { access_token := "newAccess" } 5 oldTokenStore)
      KEY_ID_TOKEN = some "oldId" := by
  have h := storeTokens_omitted_fields_keep_old { access_token := "newAccess" } 5 oldTokenStore
  exact ⟨((h.1 rfl).1).trans (by decide), (h.2.1 rfl).trans (by decide),
    (h.2.2 rfl).trans (by decide)⟩

/-! ## C5: expiry bookkeeping of storeTokens and isTokenExpired -/

/-- C5: storing a token response with expires_in = 3600 records exactly the
store instant plus 3600 seconds (in milliseconds, derived from the response
lifetime, not from any server timestamp); isTokenExpired is false at the
store instant and true from 3600 seconds later on; and with no stored expiry
isTokenExpired is true. -/
theorem storeTokens_expiry_spec (tokens : TokenResponse) (now : Nat) (st : Store)
    (hexp : tokens.expires_in = some 3600) :
    getItem (storeTokens tokens now st) KEY_EXPIRES_AT =
      some (jsNumberToString (now + 3600 * 1000)) ∧
    isTokenExpired now (storeTokens tokens now st) = false ∧
    (∀ t, now + 3600 * 1000 ≤ t → isTokenExpired t (storeTokens tokens now st) = true) ∧
    (∀ t (st2 : Store), getItem st2 KEY_EXPIRES_AT = none → isTokenExpired t st2 = true) := by
  have hget : getItem (storeTokens tokens now st) KEY_EXPIRES_AT =
      some (jsNumberToString (now + 3600 * 1000)) := by
    unfold storeTokens
    rw [hexp]
    simp [getItem_setItem]
  refine ⟨hget, ?_, fun t ht => ?_, fun t st2 h2 => ?_⟩
  · unfold isTokenExpired
    rw [hget]
    simp only [if_neg (jsNumberToString_ne_empty (now + 3600 * 1000)),
      jsStringToNumber_jsNumberToString]
    simp
  · unfold isTokenExpired
    rw [hget]
    simp only [if_neg (jsNumberToString_ne_empty (now + 3600 * 1000)),
      jsStringToNumber_jsNumberToString]
    simpa using ht
  · unfold isTokenExpired
    rw [h2]

theorem storeTokens_expiry_spec_witness :
    isTokenExpired 0 (storeTokens { access_token := "at1", expires_in := some 3600 }
      0 emptyStore) = false ∧
    isTokenExpired 3600000 (storeTokens { access_token := "at1", expires_in := some 3600 }
      0 emptyStore) = true ∧
    isTokenExpired 77 emptyStore = true := by
  have h := storeTokens_expiry_spec { access_token := "at1", expires_in := some 3600 }
    0 emptyStore rfl
  exact ⟨h.2.1, h.2.2.1 3600000 (by omega), h.2.2.2 77 emptyStore rfl⟩

/-! ## C8: a failed refresh leaves storage untouched -/

/-- C8: whenever refreshAccessToken fails, for any reason, the storage after
the call is the storage before it, so the access token, refresh token, ID
token and expiry instant are all unchanged. -/
theorem refreshAccessToken_failure_keeps_storage (env : NetworkEnv)
    (cache : Option OidcDiscovery) (now : Nat) (st : Store)
    (hfail : exceptOk (refreshAccessToken env cache now st).result = false) :
    (refreshAccessToken env cache now st).store = st ∧
    getItem (refreshAccessToken env cache now st).store KEY_ACCESS_TOKEN =
      getItem st KEY_ACCESS_TOKEN ∧
    getItem (refreshAccessToken env cache now st).store KEY_REFRESH_TOKEN =
      getItem st KEY_REFRESH_TOKEN ∧
    getItem (refreshAccessToken env cache now st).store KEY_ID_TOKEN =
      getItem st KEY_ID_TOKEN ∧
    getItem (refreshAccessToken env cache now st).store KEY_EXPIRES_AT =
      getItem st KEY_EXPIRES_AT := by
  have hstore : (refreshAccessToken env cache now st).store = st := by
    unfold refreshAccessToken at hfail ⊢
    cases h1 : truthy (getItem st KEY_REFRESH_TOKEN) with
    | false => simp [h1]
    | true =>
      simp only [h1, Bool.not_true, Bool.false_eq_true, if_false] at hfail ⊢
      rcases hd : getDiscovery env cache with ⟨res, cache2⟩
      cases res with
      | error e => simp [hd]
      | ok d =>
        simp only [hd] at hfail ⊢
        cases hok : env.tokenEndpoint.ok with
        | false => simp [hok]
        | true =>
          cases hbody : env.tokenEndpoint.jsonBody with
          | none => simp [hok, hbody]
          | some tokens => simp [hok, hbody, exceptOk] at hfail
  exact ⟨hstore, by rw [hstore], by rw [hstore], by rw [hstore], by rw [hstore]⟩

/-- A network whose token endpoint answers the refresh POST with a 500. -/
def refreshFailEnv : NetworkEnv :=
  { discovery := { ok := true, status := 200, jsonBody := none },
    tokenEndpoint := { ok := false, status := 500, jsonBody := none } }

theorem refreshAccessToken_failure_keeps_storage_witness :
    (refreshAccessToken refreshFailEnv none 7 oldTokenStore).store = oldTokenStore := by
  have h := refreshAccessToken_failure_keeps_storage refreshFailEnv none 7
    oldTokenStore (by decide)
  exact h.1

/-! ## C7: getDiscovery failure and caching behaviour -/

/-- Discovery document with every endpoint field absent, as produced by
casting an empty JSON object. -/
def emptyDiscoveryDoc : OidcDiscovery := {}

/-- A network whose well-known endpoint succeeds with an empty JSON object. -/
def incompleteDiscoveryEnv : NetworkEnv :=
  { discovery := { ok := true, status := 200, jsonBody := some emptyDiscoveryDoc },
    tokenEndpoint := { ok := true, status := 200, jsonBody := none } }

/-- C7 counterexample: a success response whose JSON body is missing all
three endpoint URLs is returned and cached by getDiscovery, not rejected. -/
theorem getDiscovery_accepts_incomplete_document :
    (getDiscovery incompleteDiscoveryEnv none).1 = .ok emptyDiscoveryDoc ∧
    (getDiscovery incompleteDiscoveryEnv none).2 = some emptyDiscoveryDoc ∧
    emptyDiscoveryDoc.authorization_endpoint = none ∧
    emptyDiscoveryDoc.token_endpoint = none ∧
    emptyDiscoveryDoc.userinfo_endpoint = none :=
  ⟨rfl, rfl, rfl, rfl, rfl⟩

/-- C7 amended: with an empty cache, getDiscovery fails with a discovery
error on a non-success status and an invalid-JSON error on an unparseable
body, and otherwise returns and caches the parsed document exactly as
received, without validating that the three endpoint URLs are present; with a
populated cache it returns the cached document without a network request. -/
theorem getDiscovery_spec (env : NetworkEnv) :
    (env.discovery.ok = false →
      (getDiscovery env none).1 = .error (.discoveryFailed env.discovery.status)) ∧
    (env.discovery.ok = true → env.discovery.jsonBody = none →
      (getDiscovery env none).1 = .error .invalidJson) ∧
    (∀ d, env.discovery.ok = true → env.discovery.jsonBody = some d →
      getDiscovery env none = (.ok d, some d)) ∧
    (∀ d, getDiscovery env (some d) = (.ok d, some d)) := by
  refine ⟨fun h1 => ?_, fun h1 h2 => ?_, fun d h1 h2 => ?_, fun d => ?_⟩
  · simp [getDiscovery, h1]
  · simp [getDiscovery, h1, h2]
  · simp [getDiscovery, h1, h2]
  · simp [getDiscovery]

/-- A network whose well-known endpoint answers with a 500. -/
def failedDiscoveryEnv : NetworkEnv :=
  { discovery := { ok := false, status := 500, jsonBody := none },
    tokenEndpoint := { ok := true, status := 200, jsonBody := none } }

theorem getDiscovery_spec_witness :
    (getDiscovery failedDiscoveryEnv none).1 = .error (.discoveryFailed 500) :=
  (getDiscovery_spec failedDiscoveryEnv).1 rfl

/-! ## C2: state mismatch and the token-endpoint request count -/

/-- A callback URL carrying a provider error and a mismatching state. -/
def errorCallbackUrl : CallbackUrl :=
  { href := "https://app/cb?error=access_denied&state=bad",
    state := some "bad", error := some "access_denied" }

/-- C2 counterexample: with pending state good persisted, a callback whose
state is bad but which also carries an error parameter fails with the
provider error, not with the state-mismatch error, so the claim that every
mismatching callback fails with the CSRF error is false as stated. -/
theorem handleCallback_mismatch_counterexample :
    (handleCallback incompleteDiscoveryEnv none 0 errorCallbackUrl
      (storePendingRequest "good" "ver" emptyStore)).result =
        .error (.oauthError "access_denied") ∧
    (handleCallback incompleteDiscoveryEnv none 0 errorCallbackUrl
      (storePendingRequest "good" "ver" emptyStore)).result ≠
        .error .stateMismatch := by
  exact ⟨rfl, by decide⟩

/-- C2 amended: a callback whose state differs from the persisted pending
state, or arrives when none is persisted, never triggers a token-endpoint
request (the exchange count is zero); and when such a callback carries no
error parameter and does carry a code, it fails with the state-mismatch
(CSRF) error, the error and missing-code checks coming first. -/
theorem handleCallback_state_mismatch_spec (env : NetworkEnv)
    (cache : Option OidcDiscovery) (now : Nat) (url : CallbackUrl) (st : Store)
    (hmm : getItem st KEY_STATE = none ∨ getItem st KEY_STATE ≠ url.state) :
    (handleCallback env cache now url st).exchangeCount = 0 ∧
    (truthy url.error = false → truthy url.code = true →
      (handleCallback env cache now url st).result = .error .stateMismatch) := by
  have hcond : (!truthy (getItem st KEY_STATE) ||
      (getItem st KEY_STATE != url.state)) = true := by
    rcases hmm with h | h
    · rw [h]; rfl
    · simp [bne_iff_ne, h]
  unfold handleCallback
  cases herr : truthy url.error with
  | true => exact ⟨by simp [herr], fun hf _ => by simp at hf⟩
  | false =>
    cases hcode : truthy url.code with
    | false =>
      refine ⟨by simp [herr, hcode], fun _ hc => by simp at hc⟩
    | true =>
      exact ⟨by simp [herr, hcode, hcond], fun _ _ => by simp [herr, hcode, hcond]⟩

/-- A callback URL with a valid code but a state that matches nothing. -/
def mismatchedCallbackUrl : CallbackUrl :=
  { href := "https://app/cb?code=abc&state=bad", code := some "abc",
    state := some "bad" }

theorem handleCallback_state_mismatch_spec_witness :
    (handleCallback incompleteDiscoveryEnv none 0 mismatchedCallbackUrl
      (storePendingRequest "good" "ver" emptyStore)).exchangeCount = 0 ∧
    (handleCallback incompleteDiscoveryEnv none 0 mismatchedCallbackUrl
      (storePendingRequest "good" "ver" emptyStore)).result =
        .error .stateMismatch := by
  have h := handleCallback_state_mismatch_spec incompleteDiscoveryEnv none 0
    mismatchedCallbackUrl (storePendingRequest "good" "ver" emptyStore)
    (Or.inr (by decide))
  exact ⟨h.1, h.2 rfl rfl⟩

/-! ## C3: consumption of the pending request by handleCallback -/

/-- C3 counterexample: with a pending request persisted, a callback carrying
a provider error makes handleCallback throw before the cleanup lines run, so
the pending state and code verifier are still in storage after the call,
contradicting the claim that a consumed pending request is always removed. -/
theorem handleCallback_keeps_pending_counterexample :
    (handleCallback incompleteDiscoveryEnv none 0 errorCallbackUrl
      (storePendingRequest "good" "ver" emptyStore)).result =
        .error (.oauthError "access_denied") ∧
    getItem (handleCallback incompleteDiscoveryEnv none 0 errorCallbackUrl
      (storePendingRequest "good" "ver" emptyStore)).store KEY_STATE =
        some "good" ∧
    getItem (handleCallback incompleteDiscoveryEnv none 0 errorCallbackUrl
      (storePendingRequest "good" "ver" emptyStore)).store KEY_CODE_VERIFIER =
        some "ver" := by
  exact ⟨rfl, by decide, by decide⟩

/-- C3 amended: the pending request is deleted exactly when the callback
passes every validation (no error parameter, code present, truthy matching
state, truthy verifier), and the deletion happens before the exchange, so the
state and verifier are gone from the final storage whatever the exchange
outcome; on any validation failure the storage is left exactly as it was,
pending request included. -/
theorem handleCallback_pending_consumption (env : NetworkEnv)
    (cache : Option OidcDiscovery) (now : Nat) (url : CallbackUrl) (st : Store) :
    (truthy url.error = false → truthy url.code = true →
      truthy (getItem st KEY_STATE) = true → getItem st KEY_STATE = url.state →
      truthy (getItem st KEY_CODE_VERIFIER) = true →
      getItem (handleCallback env cache now url st).store KEY_STATE = none ∧
      getItem (handleCallback env cache now url st).store KEY_CODE_VERIFIER = none) ∧
    (¬(truthy url.error = false ∧ truthy url.code = true ∧
        truthy (getItem st KEY_STATE) = true ∧ getItem st KEY_STATE = url.state ∧
        truthy (getItem st KEY_CODE_VERIFIER) = true) →
      (handleCallback env cache now url st).store = st) := by
  have hst1_state :
      getItem (removeItem (removeItem st KEY_STATE) KEY_CODE_VERIFIER) KEY_STATE = none := by
    simp [getItem_removeItem, KEY_STATE, KEY_CODE_VERIFIER]
  have hst1_ver :
      getItem (removeItem (removeItem st KEY_STATE) KEY_CODE_VERIFIER)
        KEY_CODE_VERIFIER = none := by
    simp [getItem_removeItem]
  constructor
  · intro h1 h2 h3 h4 h5
    have hcond : (!truthy (getItem st KEY_STATE) ||
        (getItem st KEY_STATE != url.state)) = false := by
      rw [h4] at h3 ⊢
      simp [h3]
    unfold handleCallback
    simp only [h1, h2, h5, hcond, Bool.not_true, Bool.false_eq_true, if_false,
      Bool.not_false, Bool.true_eq_false, if_true]
    rcases hd : getDiscovery env cache with ⟨res, cache2⟩
    cases res with
    | error e => simpa [hd] using ⟨hst1_state, hst1_ver⟩
    | ok d =>
      simp only [hd]
      cases hok : env.tokenEndpoint.ok with
      | false => simpa [hok] using ⟨hst1_state, hst1_ver⟩
      | true =>
        cases hbody : env.tokenEndpoint.jsonBody with
        | none => simpa [hok, hbody] using ⟨hst1_state, hst1_ver⟩
        | some tokens =>
          simp only [hok, hbody, if_true]
          constructor
          · rw [getItem_storeTokens_state]
            exact hst1_state
          · rw [getItem_storeTokens_verifier]
            exact hst1_ver
  · intro hnot
    unfold handleCallback
    cases h1 : truthy url.error with
    | true => simp [h1]
    | false =>
      cases h2 : truthy url.code with
      | false => simp [h1, h2]
      | true =>
        cases h3 : (!truthy (getItem st KEY_STATE) ||
            (getItem st KEY_STATE != url.state)) with
        | true => simp [h1, h2, h3]
        | false =>
          have hstate_truthy : truthy (getItem st KEY_STATE) = true := by
            rcases Bool.or_eq_false_iff.mp h3 with ⟨ha, _⟩
            simpa using ha
          have hstate_eq : getItem st KEY_STATE = url.state := by
            rcases Bool.or_eq_false_iff.mp h3 with ⟨_, hb⟩
            simpa [bne_eq_false_iff_eq] using hb
          cases h5 : truthy (getItem st KEY_CODE_VERIFIER) with
          | false => simp [h1, h2, h3, h5]
          | true => exact absurd ⟨h1, h2, hstate_truthy, hstate_eq, h5⟩ hnot

/-- A callback URL whose code and state line up with the persisted pending
request used in the concrete instances below. -/
def matchedCallbackUrl : CallbackUrl :=
  { href := "https://app/cb?code=abc&state=good", code := some "abc",
    state := some "good" }

theorem handleCallback_pending_consumption_witness :
    getItem (handleCallback incompleteDiscoveryEnv none 0 matchedCallbackUrl
      (storePendingRequest "good" "ver" emptyStore)).store KEY_STATE = none ∧
    getItem (handleCallback incompleteDiscoveryEnv none 0 matchedCallbackUrl
      (storePendingRequest "good" "ver" emptyStore)).store KEY_CODE_VERIFIER = none := by
  have h := handleCallback_pending_consumption incompleteDiscoveryEnv none 0
    matchedCallbackUrl (storePendingRequest "good" "ver" emptyStore)
  exact h.1 rfl rfl (by decide) (by decide) (by decide)

/-! ## C4: getValidAccessToken never throws and refreshes at most once -/

/-- C4: getValidAccessToken returns the stored access token when it is truthy
and unexpired, with no refresh attempt; otherwise, when a truthy refresh
token is stored, it makes exactly one refresh attempt and returns the
refreshed access token on success and null on any failure; otherwise it
returns null with no refresh attempt. Its result type is a plain optional
string: the embedded try-catch turns every refresh error into null, so no
path throws. -/
theorem getValidAccessToken_spec (env : NetworkEnv)
    (cache : Option OidcDiscovery) (now : Nat) (st : Store) :
    (truthy (getItem st KEY_ACCESS_TOKEN) = true → isTokenExpired now st = false →
      (getValidAccessToken env cache now st).result = getItem st KEY_ACCESS_TOKEN ∧
      (getValidAccessToken env cache now st).refreshAttempts = 0) ∧
    (¬(truthy (getItem st KEY_ACCESS_TOKEN) = true ∧ isTokenExpired now st = false) →
      truthy (getItem st KEY_REFRESH_TOKEN) = true →
      (getValidAccessToken env cache now st).refreshAttempts = 1 ∧
      (∀ e, (refreshAccessToken env cache now st).result = .error e →
        (getValidAccessToken env cache now st).result = none) ∧
      (∀ tokens, (refreshAccessToken env cache now st).result = .ok tokens →
        (getValidAccessToken env cache now st).result = some tokens.access_token)) ∧
    (¬(truthy (getItem st KEY_ACCESS_TOKEN) = true ∧ isTokenExpired now st = false) →
      truthy (getItem st KEY_REFRESH_TOKEN) = false →
      (getValidAccessToken env cache now st).result = none ∧
      (getValidAccessToken env cache now st).refreshAttempts = 0) := by
  refine ⟨fun h1 h2 => ?_, fun hno hr => ?_, fun hno hr => ?_⟩
  · unfold getValidAccessToken
    simp [h1, h2]
  · have hcond : (truthy (getItem st KEY_ACCESS_TOKEN) && !isTokenExpired now st) = false := by
      cases ha : truthy (getItem st KEY_ACCESS_TOKEN) <;>
        cases he : isTokenExpired now st <;> simp_all
    unfold getValidAccessToken
    simp only [hcond, hr, Bool.false_eq_true, if_false, if_true]
    rcases hres : (refreshAccessToken env cache now st).result with e | tokens
    · exact ⟨by simp, fun e2 _ => by simp, fun tokens2 habs => Except.noConfusion habs⟩
    · refine ⟨by simp, fun e2 habs => Except.noConfusion habs, fun tokens2 heq => ?_⟩
      injection heq with h
      rw [h]
  · have hcond : (truthy (getItem st KEY_ACCESS_TOKEN) && !isTokenExpired now st) = false := by
      cases ha : truthy (getItem st KEY_ACCESS_TOKEN) <;>
        cases he : isTokenExpired now st <;> simp_all
    unfold getValidAccessToken
    simp [hcond, hr]

theorem getValidAccessToken_spec_witness :
    (getValidAccessToken refreshFailEnv none 0 emptyStore).result = none ∧
    (getValidAccessToken refreshFailEnv none 0 emptyStore).refreshAttempts = 0 := by
  have h := getValidAccessToken_spec refreshFailEnv none 0 emptyStore
  exact h.2.2 (by decide) (by decide)

/-! ## C6: shape of the generated PKCE pair -/

/-- C6: every pair produced by generatePkceChallenge has its challenge equal
to the url-safe unpadded base64 encoding of the SHA-256 digest of its
verifier (the S256 method), and the verifier is a 64-character string, inside
the 43-to-128 range; the hypotheses state the contract of
crypto.getRandomValues on a 64-element byte array. -/
theorem generatePkceChallenge_spec (sha256 : String → List Nat)
    (bytes : List Nat) (hlen : bytes.length = 64)
    (hval : ∀ b ∈ bytes, b < 256) :
    (generatePkceChallenge sha256 bytes).codeChallenge =
      base64UrlEncode (sha256 (generatePkceChallenge sha256 bytes).codeVerifier) ∧
    (generatePkceChallenge sha256 bytes).codeVerifier.length = 64 ∧
    43 ≤ (generatePkceChallenge sha256 bytes).codeVerifier.length ∧
    (generatePkceChallenge sha256 bytes).codeVerifier.length ≤ 128 := by
  have hflat : ((bytes.map byteChars).flatten).length = 2 * bytes.length :=
    flatBytes_length bytes (fun b hb => by have := hval b hb; omega)
  have hlen64 : (generateRandomString 64 bytes).length = 64 := by
    show (List.take 64 (bytes.map byteChars).flatten).length = 64
    rw [List.length_take, hflat, hlen]
    omega
  have hp : (generatePkceChallenge sha256 bytes).codeVerifier.length = 64 := hlen64
  refine ⟨rfl, hp, ?_, ?_⟩ <;> omega

/-- The 64 zero bytes and a constant digest, used to run the generator on
concrete data. -/
def zeroBytes64 : List Nat := List.replicate 64 0

/-- A concrete stand-in digest function for exercising the generator. -/
def constDigest : String → List Nat := fun _ => List.replicate 32 0

theorem generatePkceChallenge_spec_witness :
    (generatePkceChallenge constDigest zeroBytes64).codeChallenge =
      base64UrlEncode (constDigest
        (generatePkceChallenge constDigest zeroBytes64).codeVerifier) ∧
    (generatePkceChallenge constDigest zeroBytes64).codeVerifier.length = 64 := by
  have h := generatePkceChallenge_spec constDigest zeroBytes64 (by decide) (by decide)
  exact ⟨h.1, h.2.1⟩

/-! ## C9: entropy actually consumed by the verifier and the state -/

/-- The 32 zero bytes. -/
def stateBytesA : List Nat := List.replicate 32 0

/-- 16 zero bytes followed by 16 one bytes: agrees with stateBytesA on the
first half and differs on all of the second half. -/
def stateBytesB : List Nat := List.replicate 16 0 ++ List.replicate 16 1

/-- C9 counterexample: two different 32-byte random inputs that differ in
their entire second half produce the same state value, so the map from the
32 consumed random bytes to the state is not injective and the state is not
determined by 256 bits of the random source. -/
theorem generateState_not_injective_on_32_bytes :
    stateBytesA ≠ stateBytesB ∧
    stateBytesA.length = 32 ∧ stateBytesB.length = 32 ∧
    generateState stateBytesA = generateState stateBytesB := by
  refine ⟨by decide, by decide, by decide, by decide⟩

theorem generateRandomString_eq_iff (k : Nat) (bs1 bs2 : List Nat)
    (hv1 : ∀ b ∈ bs1, b < 256) (hv2 : ∀ b ∈ bs2, b < 256)
    (hl1 : k ≤ bs1.length) (hl2 : k ≤ bs2.length) :
    generateRandomString (2 * k) bs1 = generateRandomString (2 * k) bs2 ↔
      bs1.take k = bs2.take k := by
  have h1 : List.take (2 * k) (bs1.map byteChars).flatten =
      ((bs1.take k).map byteChars).flatten :=
    take_flatBytes k bs1 (fun b hb => by have := hv1 b hb; omega) hl1
  have h2 : List.take (2 * k) (bs2.map byteChars).flatten =
      ((bs2.take k).map byteChars).flatten :=
    take_flatBytes k bs2 (fun b hb => by have := hv2 b hb; omega) hl2
  unfold generateRandomString
  rw [h1, h2]
  constructor
  · intro h
    have hl : ((bs1.take k).map byteChars).flatten =
        ((bs2.take k).map byteChars).flatten := by
      have hdata := congrArg String.data h
      simpa using hdata
    exact flatBytes_inj (bs1.take k) (bs2.take k)
      (fun b hb => by have := hv1 b (List.take_subset k bs1 hb); omega)
      (fun b hb => by have := hv2 b (List.take_subset k bs2 hb); omega) hl
  · intro h
    rw [h]

/-- C9 amended: the verifier consumes 64 random bytes but is determined by,
and injective in, exactly the first 32 of them, so it carries 256 bits of
entropy as claimed; the state consumes 32 random bytes but is determined by,
and injective in, only the first 16 of them, so it carries 128 bits of
entropy, not the claimed 256 — the slice to the target length discards the
second half of the base-36 expansion of the random bytes. -/
theorem randomness_entropy_spec :
    (∀ bs1 bs2 : List Nat, (∀ b ∈ bs1, b < 256) → (∀ b ∈ bs2, b < 256) →
      bs1.length = 64 → bs2.length = 64 →
      (generateRandomString 64 bs1 = generateRandomString 64 bs2 ↔
        bs1.take 32 = bs2.take 32)) ∧
    (∀ bs1 bs2 : List Nat, (∀ b ∈ bs1, b < 256) → (∀ b ∈ bs2, b < 256) →
      bs1.length = 32 → bs2.length = 32 →
      (generateState bs1 = generateState bs2 ↔ bs1.take 16 = bs2.take 16)) := by
  constructor
  · intro bs1 bs2 hv1 hv2 hl1 hl2
    have h := generateRandomString_eq_iff 32 bs1 bs2 hv1 hv2 (by omega) (by omega)
    simpa using h
  · intro bs1 bs2 hv1 hv2 hl1 hl2
    have h := generateRandomString_eq_iff 16 bs1 bs2 hv1 hv2 (by omega) (by omega)
    unfold generateState
    simpa using h

theorem randomness_entropy_spec_witness :
    generateState stateBytesA = generateState stateBytesB ↔
      stateBytesA.take 16 = stateBytesB.take 16 :=
  randomness_entropy_spec.2 stateBytesA stateBytesB (by decide) (by decide)
    (by decide) (by decide)

/-! ## C1: the silent signin success path -/

/-- C1 (evidence for the code defect): after signinSilent persists its
pending state and verifier, a load event that wins the race against the
timeout and carries a same-origin URL starting with the registered redirect
URI, holding an authorization code and exactly the state generated for this
attempt, still resolves the promise with null — for every network
environment, including one whose token endpoint would answer the exchange
successfully. The cleanup closure removes the pending state from storage
before handleCallback reads it, so handleCallback always rejects with a
state mismatch and the success path is unreachable. -/
theorem signinSilent_success_path_resolves_null (cfg : BrowserIamConfig)
    (env : NetworkEnv) (cache : Option OidcDiscovery) (now : Nat)
    (s v : String) (st0 : Store) (u : CallbackUrl)
    (hhref : strStartsWith u.href cfg.redirectUri = true)
    (herr : truthy u.error = false) (hcode : truthy u.code = true)
    (_hstate : u.state = some s) :
    (signinSilentStep cfg env cache now (.load (some u))
      (storePendingRequest s v st0)).resolved = some none := by
  have hsaved : getItem (silentCleanup (storePendingRequest s v st0)) KEY_STATE = none := by
    simp [silentCleanup, getItem_removeItem, KEY_STATE, KEY_CODE_VERIFIER]
  have htn : truthy none = false := rfl
  have hr : (handleCallback env cache now u
      (silentCleanup (storePendingRequest s v st0))).result = .error .stateMismatch := by
    unfold handleCallback
    simp [herr, hcode, hsaved, htn]
  unfold signinSilentStep
  simp [hhref, hr]

/-- A discovery document with all three endpoints present. -/
def sampleDiscoveryDoc : OidcDiscovery :=
  { authorization_endpoint := some "https://iam/auth",
    token_endpoint := some "https://iam/token",
    userinfo_endpoint := some "https://iam/userinfo" }

/-- A token response as the token endpoint would return it on success. -/
def sampleTokens : TokenResponse :=
  { access_token := "at1", refresh_token := some "rt1", id_token := some "idt1",
    expires_in := some 3600 }

/-- A network on which discovery and the code exchange both succeed. -/
def successEnv : NetworkEnv :=
  { discovery := { ok := true, status := 200, jsonBody := some sampleDiscoveryDoc },
    tokenEndpoint := { ok := true, status := 200, jsonBody := some sampleTokens } }

/-- The configuration of the concrete silent-flow run. -/
def silentConfig : BrowserIamConfig := { redirectUri := "https://app/cb" }

/-- The same-origin URL the iframe reports after a successful silent
authorization: it starts with the redirect URI and carries a code and the
state persisted for the attempt. -/
def silentLoadUrl : CallbackUrl :=
  { href := "https://app/cb?code=abc&state=s1", code := some "abc",
    state := some "s1" }

theorem signinSilent_success_path_resolves_null_witness :
    (signinSilentStep silentConfig successEnv none 0 (.load (some silentLoadUrl))
      (storePendingRequest "s1" "v1" emptyStore)).resolved = some none :=
  signinSilent_success_path_resolves_null silentConfig successEnv none 0
    "s1" "v1" emptyStore silentLoadUrl (by decide) rfl rfl rfl

end HanzoIam
